import Mathlib

/-!
Verification of the gym-membership web application (models, forms, views).

The Python source is shallowly embedded: Django model rows become structures,
the Decimal money type (all columns use decimal_places = 2) becomes an exact
fixed-point integer count of hundredths, and each view or form method becomes
a pure function from its inputs (request method, posted fields, the row it
operates on) to the updated row and the resulting redirect or render.

String operations are re-implemented over the character list of a string so
that every definition evaluates by kernel reduction.
-/

namespace Gym

/-! ### String primitives (Python string methods used by the app) -/

/-- The Python whitespace set: the characters for which str.isspace() is
true, which is also exactly what parameterless str.strip() removes and what
the regex class \s matches in unicode mode (tab through carriage return,
the four information separators, space, next line, no-break space, ogham
space mark, the en/em/figure/punctuation spaces 2000-200A, line and
paragraph separators, narrow no-break space, medium mathematical space, and
ideographic space). -/
def pyIsSpace (c : Char) : Bool :=
  let n := c.toNat
  (9 ≤ n && n ≤ 13) || (28 ≤ n && n ≤ 32) || n == 133 || n == 160 || n == 5760 ||
    (8192 ≤ n && n ≤ 8202) || n == 8232 || n == 8233 || n == 8239 || n == 8287 ||
    n == 12288

/-- One left-strip pass: drop leading Python-whitespace characters. -/
def pyLstripList : List Char → List Char
  | [] => []
  | c :: cs => if pyIsSpace c then pyLstripList cs else c :: cs

/-- Python str.strip: drop Python whitespace from both ends. -/
def pyStrip (s : String) : String :=
  ⟨((pyLstripList ((pyLstripList s.data).reverse)).reverse)⟩

/-- Python str.replace(old, "") for a single-character old string:
delete every occurrence of the character. -/
def removeChar (c : Char) (s : String) : String :=
  ⟨s.data.filter (fun x => x != c)⟩

/-- Python str.lower (ASCII scope, which is all the app compares). -/
def lowerStr (s : String) : String :=
  ⟨s.data.map Char.toLower⟩

/-- Code-point lexicographic comparison of character lists; used to model
the database collation that orders rows by a text column. -/
def lexLeChars : List Char → List Char → Bool
  | [], _ => true
  | _ :: _, [] => false
  | a :: as, b :: bs =>
    if a.toNat < b.toNat then true
    else if a.toNat = b.toNat then lexLeChars as bs
    else false

/-- Lexicographic order on strings via their character lists. -/
def strLeB (a b : String) : Bool :=
  lexLeChars a.data b.data

theorem lexLeChars_total : ∀ a b : List Char,
    lexLeChars a b = true ∨ lexLeChars b a = true := by
  intro a
  induction a with
  | nil => intro b; left; rfl
  | cons x xs ih =>
    intro b
    cases b with
    | nil => right; rfl
    | cons y ys =>
      simp only [lexLeChars]
      rcases Nat.lt_trichotomy x.toNat y.toNat with h | h | h
      · left; simp [h]
      · rcases ih ys with h2 | h2
        · left; simp [h, h2]
        · right; simp [h.symm, h2]
      · right; simp [h]

theorem lexLeChars_trans : ∀ a b c : List Char,
    lexLeChars a b = true → lexLeChars b c = true → lexLeChars a c = true := by
  intro a
  induction a with
  | nil => intro b c _ _; rfl
  | cons x xs ih =>
    intro b c hab hbc
    cases b with
    | nil => simp [lexLeChars] at hab
    | cons y ys =>
      cases c with
      | nil => simp [lexLeChars] at hbc
      | cons z zs =>
        simp only [lexLeChars] at hab hbc ⊢
        by_cases hxy : x.toNat < y.toNat
        · by_cases hyz : y.toNat < z.toNat
          · simp [show x.toNat < z.toNat by omega]
          · simp [hyz] at hbc
            by_cases hyz2 : y.toNat = z.toNat
            · simp [show x.toNat < z.toNat by omega]
            · simp [hyz2] at hbc
        · simp [hxy] at hab
          by_cases hxy2 : x.toNat = y.toNat
          · simp [hxy2] at hab
            by_cases hyz : y.toNat < z.toNat
            · simp [show x.toNat < z.toNat by omega]
            · simp [hyz] at hbc
              by_cases hyz2 : y.toNat = z.toNat
              · simp [hyz2] at hbc
                have hxz : ¬ x.toNat < z.toNat := by omega
                simp [hxz, show x.toNat = z.toNat by omega]
                exact ih ys zs hab hbc
              · simp [hyz2] at hbc
          · simp [hxy2] at hab

theorem strLeB_total (a b : String) : strLeB a b = true ∨ strLeB b a = true :=
  lexLeChars_total a.data b.data

theorem strLeB_trans (a b c : String) :
    strLeB a b = true → strLeB b c = true → strLeB a c = true :=
  lexLeChars_trans a.data b.data c.data

/-! ### Decimal strings of natural numbers (Python str of an int) -/

/-- Most-significant-first decimal digits of a natural number, with explicit
fuel so that the definition is structural and kernel-reducible. -/
def natDigitsAux : Nat → Nat → List Char
  | 0, _ => []
  | fuel + 1, n =>
    if n < 10 then [Nat.digitChar n]
    else natDigitsAux fuel (n / 10) ++ [Nat.digitChar (n % 10)]

/-- Python str of a nonnegative int: decimal digits, no leading zeros. -/
def natToDecStr (n : Nat) : String :=
  ⟨natDigitsAux (n + 1) n⟩

/-- Decimal parse, the left inverse used to prove that distinct numbers
produce distinct decimal strings. -/
def decParseAux (acc : Nat) : List Char → Nat
  | [] => acc
  | c :: cs => decParseAux (acc * 10 + (c.toNat - 48)) cs

theorem decParseAux_append (l₁ : List Char) : ∀ (acc : Nat) (l₂ : List Char),
    decParseAux acc (l₁ ++ l₂) = decParseAux (decParseAux acc l₁) l₂ := by
  induction l₁ with
  | nil => intro acc l₂; rfl
  | cons c cs ih =>
    intro acc l₂
    show decParseAux (acc * 10 + (c.toNat - 48)) (cs ++ l₂) =
      decParseAux (decParseAux (acc * 10 + (c.toNat - 48)) cs) l₂
    exact ih _ _

theorem digitChar_toNat_sub (n : Nat) (h : n < 10) :
    (Nat.digitChar n).toNat - 48 = n := by
  have hc : n = 0 ∨ n = 1 ∨ n = 2 ∨ n = 3 ∨ n = 4 ∨ n = 5 ∨ n = 6 ∨ n = 7 ∨
      n = 8 ∨ n = 9 := by omega
  rcases hc with h | h | h | h | h | h | h | h | h | h <;> subst h <;> decide

theorem natDigitsAux_succ_def (f n : Nat) :
    natDigitsAux (f + 1) n =
      if n < 10 then [Nat.digitChar n]
      else natDigitsAux f (n / 10) ++ [Nat.digitChar (n % 10)] := rfl

theorem decParseAux_single (acc : Nat) (c : Char) :
    decParseAux acc [c] = acc * 10 + (c.toNat - 48) := rfl

theorem natDigitsAux_parse : ∀ (fuel n : Nat), n < fuel → ∀ acc : Nat,
    ∃ k, decParseAux acc (natDigitsAux fuel n) = acc * 10 ^ k + n := by
  intro fuel
  induction fuel with
  | zero => intro n h; omega
  | succ f ih =>
    intro n h acc
    by_cases h10 : n < 10
    · refine ⟨1, ?_⟩
      rw [natDigitsAux_succ_def, if_pos h10, decParseAux_single,
        digitChar_toNat_sub n h10]
      ring
    · have hdiv : n / 10 < f := by omega
      obtain ⟨k, hk⟩ := ih (n / 10) hdiv acc
      refine ⟨k + 1, ?_⟩
      rw [natDigitsAux_succ_def, if_neg h10, decParseAux_append, hk,
        decParseAux_single, digitChar_toNat_sub (n % 10) (by omega)]
      have hmod : n / 10 * 10 + n % 10 = n := by omega
      calc (acc * 10 ^ k + n / 10) * 10 + (n % 10)
          = acc * (10 ^ k * 10) + (n / 10 * 10 + n % 10) := by ring
        _ = acc * (10 ^ k * 10) + n := by rw [hmod]
        _ = acc * 10 ^ (k + 1) + n := by rw [pow_succ]

theorem natToDecStr_injective : Function.Injective natToDecStr := by
  intro m n h
  have hm := natDigitsAux_parse (m + 1) m (Nat.lt_succ_self m) 0
  have hn := natDigitsAux_parse (n + 1) n (Nat.lt_succ_self n) 0
  obtain ⟨k₁, hk₁⟩ := hm
  obtain ⟨k₂, hk₂⟩ := hn
  have hdata : natDigitsAux (m + 1) m = natDigitsAux (n + 1) n :=
    congrArg String.data h
  rw [hdata] at hk₁
  omega

theorem natDigitsAux_ne_nil (fuel n : Nat) (h : 0 < fuel) :
    natDigitsAux fuel n ≠ [] := by
  cases fuel with
  | zero => omega
  | succ f =>
    rw [natDigitsAux_succ_def]
    by_cases h10 : n < 10
    · simp [h10]
    · simp [h10]

/-! ### Exact decimal money (Django DecimalField with decimal_places = 2) -/

/-- A DecimalField value with two decimal places, held exactly as an integer
number of hundredths.  Decimal arithmetic in the app only ever multiplies a
price by an integer month count, which is exact at this scale. -/
structure Dec2 where
  cents : Int
deriving DecidableEq

/-- Decimal times an integer: Decimal(price) * Decimal(months). -/
def Dec2.mulNat (a : Dec2) (n : Nat) : Dec2 :=
  ⟨a.cents * n⟩

/-- Python str of a nonnegative amount of hundredths, always printed with the
stored two decimal places, as str(Decimal) does for a scale-2 value. -/
def dec2StrOfNatCents (n : Nat) : String :=
  natToDecStr (n / 100) ++ "." ++
    (if n % 100 < 10 then "0" ++ natToDecStr (n % 100) else natToDecStr (n % 100))

/-- Python str(Decimal) for a scale-2 value. -/
def Dec2.toDecStr (a : Dec2) : String :=
  if a.cents < 0 then "-" ++ dec2StrOfNatCents (-a.cents).toNat
  else dec2StrOfNatCents a.cents.toNat

/-! ### Data model (models.py) -/

/-- Row of MembershipPlan (models.py).  File/image columns and timestamps are
omitted: no claim reads them. -/
structure MembershipPlan where
  name : String
  price_month : Dec2
  price_annual : Dec2
  duration_days : Nat
  perks : String
  slug : String
  is_popular : Bool
deriving DecidableEq

/-- Row of Admission (models.py).  Dates are day numbers; the photo column and
the timestamps are omitted: no claim reads them. -/
structure Admission where
  id : Nat
  first_name : String
  last_name : String
  email : String
  phone : String
  gender : String
  date_of_birth : Option Int
  address : String
  plan : Option MembershipPlan
  start_date : Int
  duration_months : Nat
  emergency_contact_name : String
  emergency_contact_phone : String
  fitness_goals : String
  medical_conditions : String
  upi_id : String
  agreed_terms : Bool
  total_amount : Dec2
deriving DecidableEq

/-- Row of AdmissionPayment (models.py).  The UUID transaction id is carried
as its string form; created_at and the surrogate pk are omitted. -/
structure AdmissionPayment where
  admission_id : Nat
  amount : Dec2
  upi_id : String
  transaction_id : String
  status : String
  payment_mode : String
deriving DecidableEq

/-- Row of Trainer (models.py); only the columns the home page ordering and
claims use. -/
structure Trainer where
  name : String
  specialization : String
  order : Nat
  is_active : Bool
deriving DecidableEq

/-- Row of GalleryImage (models.py). -/
structure GalleryImage where
  title : String
  image : String
deriving DecidableEq

/-! ### MembershipPlan.save slug derivation (models.py lines 27-36) -/

set_option maxHeartbeats 2000000 in
set_option maxRecDepth 8000 in
/-- The ASCII residue of NFKD normalization for the non-ASCII code points
that leave one: each entry maps a code point to the ASCII code points that
survive normalize("NFKD", ...) followed by encode("ascii", "ignore"), as
tabulated from the Unicode character database shipped with CPython 3.11
(2130 entries; every other non-ASCII code point decomposes to nothing
ASCII and is dropped entirely).  Canonical reordering cannot move the
ASCII residue, because every reorderable mark is non-ASCII, so applying
the map character by character agrees with normalizing the whole string. -/
def nfkdAsciiTable : List (Nat × List Nat) :=
  [(160, [32]), (168, [32]), (170, [97]), (175, [32]), (178, [50]), (179, [51]),
  (180, [32]), (184, [32]), (185, [49]), (186, [111]), (188, [49, 52]), (189, [49, 50]),
  (190, [51, 52]), (192, [65]), (193, [65]), (194, [65]), (195, [65]), (196, [65]),
  (197, [65]), (199, [67]), (200, [69]), (201, [69]), (202, [69]), (203, [69]),
  (204, [73]), (205, [73]), (206, [73]), (207, [73]), (209, [78]), (210, [79]),
  (211, [79]), (212, [79]), (213, [79]), (214, [79]), (217, [85]), (218, [85]),
  (219, [85]), (220, [85]), (221, [89]), (224, [97]), (225, [97]), (226, [97]),
  (227, [97]), (228, [97]), (229, [97]), (231, [99]), (232, [101]), (233, [101]),
  (234, [101]), (235, [101]), (236, [105]), (237, [105]), (238, [105]), (239, [105]),
  (241, [110]), (242, [111]), (243, [111]), (244, [111]), (245, [111]), (246, [111]),
  (249, [117]), (250, [117]), (251, [117]), (252, [117]), (253, [121]), (255, [121]),
  (256, [65]), (257, [97]), (258, [65]), (259, [97]), (260, [65]), (261, [97]),
  (262, [67]), (263, [99]), (264, [67]), (265, [99]), (266, [67]), (267, [99]),
  (268, [67]), (269, [99]), (270, [68]), (271, [100]), (274, [69]), (275, [101]),
  (276, [69]), (277, [101]), (278, [69]), (279, [101]), (280, [69]), (281, [101]),
  (282, [69]), (283, [101]), (284, [71]), (285, [103]), (286, [71]), (287, [103]),
  (288, [71]), (289, [103]), (290, [71]), (291, [103]), (292, [72]), (293, [104]),
  (296, [73]), (297, [105]), (298, [73]), (299, [105]), (300, [73]), (301, [105]),
  (302, [73]), (303, [105]), (304, [73]), (306, [73, 74]), (307, [105, 106]), (308, [74]),
  (309, [106]), (310, [75]), (311, [107]), (313, [76]), (314, [108]), (315, [76]),
  (316, [108]), (317, [76]), (318, [108]), (319, [76]), (320, [108]), (323, [78]),
  (324, [110]), (325, [78]), (326, [110]), (327, [78]), (328, [110]), (329, [110]),
  (332, [79]), (333, [111]), (334, [79]), (335, [111]), (336, [79]), (337, [111]),
  (340, [82]), (341, [114]), (342, [82]), (343, [114]), (344, [82]), (345, [114]),
  (346, [83]), (347, [115]), (348, [83]), (349, [115]), (350, [83]), (351, [115]),
  (352, [83]), (353, [115]), (354, [84]), (355, [116]), (356, [84]), (357, [116]),
  (360, [85]), (361, [117]), (362, [85]), (363, [117]), (364, [85]), (365, [117]),
  (366, [85]), (367, [117]), (368, [85]), (369, [117]), (370, [85]), (371, [117]),
  (372, [87]), (373, [119]), (374, [89]), (375, [121]), (376, [89]), (377, [90]),
  (378, [122]), (379, [90]), (380, [122]), (381, [90]), (382, [122]), (383, [115]),
  (416, [79]), (417, [111]), (431, [85]), (432, [117]), (452, [68, 90]), (453, [68, 122]),
  (454, [100, 122]), (455, [76, 74]), (456, [76, 106]), (457, [108, 106]), (458, [78, 74]), (459, [78, 106]),
  (460, [110, 106]), (461, [65]), (462, [97]), (463, [73]), (464, [105]), (465, [79]),
  (466, [111]), (467, [85]), (468, [117]), (469, [85]), (470, [117]), (471, [85]),
  (472, [117]), (473, [85]), (474, [117]), (475, [85]), (476, [117]), (478, [65]),
  (479, [97]), (480, [65]), (481, [97]), (486, [71]), (487, [103]), (488, [75]),
  (489, [107]), (490, [79]), (491, [111]), (492, [79]), (493, [111]), (496, [106]),
  (497, [68, 90]), (498, [68, 122]), (499, [100, 122]), (500, [71]), (501, [103]), (504, [78]),
  (505, [110]), (506, [65]), (507, [97]), (512, [65]), (513, [97]), (514, [65]),
  (515, [97]), (516, [69]), (517, [101]), (518, [69]), (519, [101]), (520, [73]),
  (521, [105]), (522, [73]), (523, [105]), (524, [79]), (525, [111]), (526, [79]),
  (527, [111]), (528, [82]), (529, [114]), (530, [82]), (531, [114]), (532, [85]),
  (533, [117]), (534, [85]), (535, [117]), (536, [83]), (537, [115]), (538, [84]),
  (539, [116]), (542, [72]), (543, [104]), (550, [65]), (551, [97]), (552, [69]),
  (553, [101]), (554, [79]), (555, [111]), (556, [79]), (557, [111]), (558, [79]),
  (559, [111]), (560, [79]), (561, [111]), (562, [89]), (563, [121]), (688, [104]),
  (690, [106]), (691, [114]), (695, [119]), (696, [121]), (728, [32]), (729, [32]),
  (730, [32]), (731, [32]), (732, [32]), (733, [32]), (737, [108]), (738, [115]),
  (739, [120]), (890, [32]), (894, [59]), (900, [32]), (901, [32]), (7468, [65]),
  (7470, [66]), (7472, [68]), (7473, [69]), (7475, [71]), (7476, [72]), (7477, [73]),
  (7478, [74]), (7479, [75]), (7480, [76]), (7481, [77]), (7482, [78]), (7484, [79]),
  (7486, [80]), (7487, [82]), (7488, [84]), (7489, [85]), (7490, [87]), (7491, [97]),
  (7495, [98]), (7496, [100]), (7497, [101]), (7501, [103]), (7503, [107]), (7504, [109]),
  (7506, [111]), (7510, [112]), (7511, [116]), (7512, [117]), (7515, [118]), (7522, [105]),
  (7523, [114]), (7524, [117]), (7525, [118]), (7580, [99]), (7584, [102]), (7611, [122]),
  (7680, [65]), (7681, [97]), (7682, [66]), (7683, [98]), (7684, [66]), (7685, [98]),
  (7686, [66]), (7687, [98]), (7688, [67]), (7689, [99]), (7690, [68]), (7691, [100]),
  (7692, [68]), (7693, [100]), (7694, [68]), (7695, [100]), (7696, [68]), (7697, [100]),
  (7698, [68]), (7699, [100]), (7700, [69]), (7701, [101]), (7702, [69]), (7703, [101]),
  (7704, [69]), (7705, [101]), (7706, [69]), (7707, [101]), (7708, [69]), (7709, [101]),
  (7710, [70]), (7711, [102]), (7712, [71]), (7713, [103]), (7714, [72]), (7715, [104]),
  (7716, [72]), (7717, [104]), (7718, [72]), (7719, [104]), (7720, [72]), (7721, [104]),
  (7722, [72]), (7723, [104]), (7724, [73]), (7725, [105]), (7726, [73]), (7727, [105]),
  (7728, [75]), (7729, [107]), (7730, [75]), (7731, [107]), (7732, [75]), (7733, [107]),
  (7734, [76]), (7735, [108]), (7736, [76]), (7737, [108]), (7738, [76]), (7739, [108]),
  (7740, [76]), (7741, [108]), (7742, [77]), (7743, [109]), (7744, [77]), (7745, [109]),
  (7746, [77]), (7747, [109]), (7748, [78]), (7749, [110]), (7750, [78]), (7751, [110]),
  (7752, [78]), (7753, [110]), (7754, [78]), (7755, [110]), (7756, [79]), (7757, [111]),
  (7758, [79]), (7759, [111]), (7760, [79]), (7761, [111]), (7762, [79]), (7763, [111]),
  (7764, [80]), (7765, [112]), (7766, [80]), (7767, [112]), (7768, [82]), (7769, [114]),
  (7770, [82]), (7771, [114]), (7772, [82]), (7773, [114]), (7774, [82]), (7775, [114]),
  (7776, [83]), (7777, [115]), (7778, [83]), (7779, [115]), (7780, [83]), (7781, [115]),
  (7782, [83]), (7783, [115]), (7784, [83]), (7785, [115]), (7786, [84]), (7787, [116]),
  (7788, [84]), (7789, [116]), (7790, [84]), (7791, [116]), (7792, [84]), (7793, [116]),
  (7794, [85]), (7795, [117]), (7796, [85]), (7797, [117]), (7798, [85]), (7799, [117]),
  (7800, [85]), (7801, [117]), (7802, [85]), (7803, [117]), (7804, [86]), (7805, [118]),
  (7806, [86]), (7807, [118]), (7808, [87]), (7809, [119]), (7810, [87]), (7811, [119]),
  (7812, [87]), (7813, [119]), (7814, [87]), (7815, [119]), (7816, [87]), (7817, [119]),
  (7818, [88]), (7819, [120]), (7820, [88]), (7821, [120]), (7822, [89]), (7823, [121]),
  (7824, [90]), (7825, [122]), (7826, [90]), (7827, [122]), (7828, [90]), (7829, [122]),
  (7830, [104]), (7831, [116]), (7832, [119]), (7833, [121]), (7834, [97]), (7835, [115]),
  (7840, [65]), (7841, [97]), (7842, [65]), (7843, [97]), (7844, [65]), (7845, [97]),
  (7846, [65]), (7847, [97]), (7848, [65]), (7849, [97]), (7850, [65]), (7851, [97]),
  (7852, [65]), (7853, [97]), (7854, [65]), (7855, [97]), (7856, [65]), (7857, [97]),
  (7858, [65]), (7859, [97]), (7860, [65]), (7861, [97]), (7862, [65]), (7863, [97]),
  (7864, [69]), (7865, [101]), (7866, [69]), (7867, [101]), (7868, [69]), (7869, [101]),
  (7870, [69]), (7871, [101]), (7872, [69]), (7873, [101]), (7874, [69]), (7875, [101]),
  (7876, [69]), (7877, [101]), (7878, [69]), (7879, [101]), (7880, [73]), (7881, [105]),
  (7882, [73]), (7883, [105]), (7884, [79]), (7885, [111]), (7886, [79]), (7887, [111]),
  (7888, [79]), (7889, [111]), (7890, [79]), (7891, [111]), (7892, [79]), (7893, [111]),
  (7894, [79]), (7895, [111]), (7896, [79]), (7897, [111]), (7898, [79]), (7899, [111]),
  (7900, [79]), (7901, [111]), (7902, [79]), (7903, [111]), (7904, [79]), (7905, [111]),
  (7906, [79]), (7907, [111]), (7908, [85]), (7909, [117]), (7910, [85]), (7911, [117]),
  (7912, [85]), (7913, [117]), (7914, [85]), (7915, [117]), (7916, [85]), (7917, [117]),
  (7918, [85]), (7919, [117]), (7920, [85]), (7921, [117]), (7922, [89]), (7923, [121]),
  (7924, [89]), (7925, [121]), (7926, [89]), (7927, [121]), (7928, [89]), (7929, [121]),
  (8125, [32]), (8127, [32]), (8128, [32]), (8129, [32]), (8141, [32]), (8142, [32]),
  (8143, [32]), (8157, [32]), (8158, [32]), (8159, [32]), (8173, [32]), (8174, [32]),
  (8175, [96]), (8189, [32]), (8190, [32]), (8192, [32]), (8193, [32]), (8194, [32]),
  (8195, [32]), (8196, [32]), (8197, [32]), (8198, [32]), (8199, [32]), (8200, [32]),
  (8201, [32]), (8202, [32]), (8215, [32]), (8228, [46]), (8229, [46, 46]), (8230, [46, 46, 46]),
  (8239, [32]), (8252, [33, 33]), (8254, [32]), (8263, [63, 63]), (8264, [63, 33]), (8265, [33, 63]),
  (8287, [32]), (8304, [48]), (8305, [105]), (8308, [52]), (8309, [53]), (8310, [54]),
  (8311, [55]), (8312, [56]), (8313, [57]), (8314, [43]), (8316, [61]), (8317, [40]),
  (8318, [41]), (8319, [110]), (8320, [48]), (8321, [49]), (8322, [50]), (8323, [51]),
  (8324, [52]), (8325, [53]), (8326, [54]), (8327, [55]), (8328, [56]), (8329, [57]),
  (8330, [43]), (8332, [61]), (8333, [40]), (8334, [41]), (8336, [97]), (8337, [101]),
  (8338, [111]), (8339, [120]), (8341, [104]), (8342, [107]), (8343, [108]), (8344, [109]),
  (8345, [110]), (8346, [112]), (8347, [115]), (8348, [116]), (8360, [82, 115]), (8448, [97, 47, 99]),
  (8449, [97, 47, 115]), (8450, [67]), (8451, [67]), (8453, [99, 47, 111]), (8454, [99, 47, 117]), (8457, [70]),
  (8458, [103]), (8459, [72]), (8460, [72]), (8461, [72]), (8462, [104]), (8464, [73]),
  (8465, [73]), (8466, [76]), (8467, [108]), (8469, [78]), (8470, [78, 111]), (8473, [80]),
  (8474, [81]), (8475, [82]), (8476, [82]), (8477, [82]), (8480, [83, 77]), (8481, [84, 69, 76]),
  (8482, [84, 77]), (8484, [90]), (8488, [90]), (8490, [75]), (8491, [65]), (8492, [66]),
  (8493, [67]), (8495, [101]), (8496, [69]), (8497, [70]), (8499, [77]), (8500, [111]),
  (8505, [105]), (8507, [70, 65, 88]), (8517, [68]), (8518, [100]), (8519, [101]), (8520, [105]),
  (8521, [106]), (8528, [49, 55]), (8529, [49, 57]), (8530, [49, 49, 48]), (8531, [49, 51]), (8532, [50, 51]),
  (8533, [49, 53]), (8534, [50, 53]), (8535, [51, 53]), (8536, [52, 53]), (8537, [49, 54]), (8538, [53, 54]),
  (8539, [49, 56]), (8540, [51, 56]), (8541, [53, 56]), (8542, [55, 56]), (8543, [49]), (8544, [73]),
  (8545, [73, 73]), (8546, [73, 73, 73]), (8547, [73, 86]), (8548, [86]), (8549, [86, 73]), (8550, [86, 73, 73]),
  (8551, [86, 73, 73, 73]), (8552, [73, 88]), (8553, [88]), (8554, [88, 73]), (8555, [88, 73, 73]), (8556, [76]),
  (8557, [67]), (8558, [68]), (8559, [77]), (8560, [105]), (8561, [105, 105]), (8562, [105, 105, 105]),
  (8563, [105, 118]), (8564, [118]), (8565, [118, 105]), (8566, [118, 105, 105]), (8567, [118, 105, 105, 105]), (8568, [105, 120]),
  (8569, [120]), (8570, [120, 105]), (8571, [120, 105, 105]), (8572, [108]), (8573, [99]), (8574, [100]),
  (8575, [109]), (8585, [48, 51]), (8800, [61]), (8814, [60]), (8815, [62]), (9312, [49]),
  (9313, [50]), (9314, [51]), (9315, [52]), (9316, [53]), (9317, [54]), (9318, [55]),
  (9319, [56]), (9320, [57]), (9321, [49, 48]), (9322, [49, 49]), (9323, [49, 50]), (9324, [49, 51]),
  (9325, [49, 52]), (9326, [49, 53]), (9327, [49, 54]), (9328, [49, 55]), (9329, [49, 56]), (9330, [49, 57]),
  (9331, [50, 48]), (9332, [40, 49, 41]), (9333, [40, 50, 41]), (9334, [40, 51, 41]), (9335, [40, 52, 41]), (9336, [40, 53, 41]),
  (9337, [40, 54, 41]), (9338, [40, 55, 41]), (9339, [40, 56, 41]), (9340, [40, 57, 41]), (9341, [40, 49, 48, 41]), (9342, [40, 49, 49, 41]),
  (9343, [40, 49, 50, 41]), (9344, [40, 49, 51, 41]), (9345, [40, 49, 52, 41]), (9346, [40, 49, 53, 41]), (9347, [40, 49, 54, 41]), (9348, [40, 49, 55, 41]),
  (9349, [40, 49, 56, 41]), (9350, [40, 49, 57, 41]), (9351, [40, 50, 48, 41]), (9352, [49, 46]), (9353, [50, 46]), (9354, [51, 46]),
  (9355, [52, 46]), (9356, [53, 46]), (9357, [54, 46]), (9358, [55, 46]), (9359, [56, 46]), (9360, [57, 46]),
  (9361, [49, 48, 46]), (9362, [49, 49, 46]), (9363, [49, 50, 46]), (9364, [49, 51, 46]), (9365, [49, 52, 46]), (9366, [49, 53, 46]),
  (9367, [49, 54, 46]), (9368, [49, 55, 46]), (9369, [49, 56, 46]), (9370, [49, 57, 46]), (9371, [50, 48, 46]), (9372, [40, 97, 41]),
  (9373, [40, 98, 41]), (9374, [40, 99, 41]), (9375, [40, 100, 41]), (9376, [40, 101, 41]), (9377, [40, 102, 41]), (9378, [40, 103, 41]),
  (9379, [40, 104, 41]), (9380, [40, 105, 41]), (9381, [40, 106, 41]), (9382, [40, 107, 41]), (9383, [40, 108, 41]), (9384, [40, 109, 41]),
  (9385, [40, 110, 41]), (9386, [40, 111, 41]), (9387, [40, 112, 41]), (9388, [40, 113, 41]), (9389, [40, 114, 41]), (9390, [40, 115, 41]),
  (9391, [40, 116, 41]), (9392, [40, 117, 41]), (9393, [40, 118, 41]), (9394, [40, 119, 41]), (9395, [40, 120, 41]), (9396, [40, 121, 41]),
  (9397, [40, 122, 41]), (9398, [65]), (9399, [66]), (9400, [67]), (9401, [68]), (9402, [69]),
  (9403, [70]), (9404, [71]), (9405, [72]), (9406, [73]), (9407, [74]), (9408, [75]),
  (9409, [76]), (9410, [77]), (9411, [78]), (9412, [79]), (9413, [80]), (9414, [81]),
  (9415, [82]), (9416, [83]), (9417, [84]), (9418, [85]), (9419, [86]), (9420, [87]),
  (9421, [88]), (9422, [89]), (9423, [90]), (9424, [97]), (9425, [98]), (9426, [99]),
  (9427, [100]), (9428, [101]), (9429, [102]), (9430, [103]), (9431, [104]), (9432, [105]),
  (9433, [106]), (9434, [107]), (9435, [108]), (9436, [109]), (9437, [110]), (9438, [111]),
  (9439, [112]), (9440, [113]), (9441, [114]), (9442, [115]), (9443, [116]), (9444, [117]),
  (9445, [118]), (9446, [119]), (9447, [120]), (9448, [121]), (9449, [122]), (9450, [48]),
  (10868, [58, 58, 61]), (10869, [61, 61]), (10870, [61, 61, 61]), (11388, [106]), (11389, [86]), (12288, [32]),
  (12443, [32]), (12444, [32]), (12800, [40, 41]), (12801, [40, 41]), (12802, [40, 41]), (12803, [40, 41]),
  (12804, [40, 41]), (12805, [40, 41]), (12806, [40, 41]), (12807, [40, 41]), (12808, [40, 41]), (12809, [40, 41]),
  (12810, [40, 41]), (12811, [40, 41]), (12812, [40, 41]), (12813, [40, 41]), (12814, [40, 41]), (12815, [40, 41]),
  (12816, [40, 41]), (12817, [40, 41]), (12818, [40, 41]), (12819, [40, 41]), (12820, [40, 41]), (12821, [40, 41]),
  (12822, [40, 41]), (12823, [40, 41]), (12824, [40, 41]), (12825, [40, 41]), (12826, [40, 41]), (12827, [40, 41]),
  (12828, [40, 41]), (12829, [40, 41]), (12830, [40, 41]), (12832, [40, 41]), (12833, [40, 41]), (12834, [40, 41]),
  (12835, [40, 41]), (12836, [40, 41]), (12837, [40, 41]), (12838, [40, 41]), (12839, [40, 41]), (12840, [40, 41]),
  (12841, [40, 41]), (12842, [40, 41]), (12843, [40, 41]), (12844, [40, 41]), (12845, [40, 41]), (12846, [40, 41]),
  (12847, [40, 41]), (12848, [40, 41]), (12849, [40, 41]), (12850, [40, 41]), (12851, [40, 41]), (12852, [40, 41]),
  (12853, [40, 41]), (12854, [40, 41]), (12855, [40, 41]), (12856, [40, 41]), (12857, [40, 41]), (12858, [40, 41]),
  (12859, [40, 41]), (12860, [40, 41]), (12861, [40, 41]), (12862, [40, 41]), (12863, [40, 41]), (12864, [40, 41]),
  (12865, [40, 41]), (12866, [40, 41]), (12867, [40, 41]), (12880, [80, 84, 69]), (12881, [50, 49]), (12882, [50, 50]),
  (12883, [50, 51]), (12884, [50, 52]), (12885, [50, 53]), (12886, [50, 54]), (12887, [50, 55]), (12888, [50, 56]),
  (12889, [50, 57]), (12890, [51, 48]), (12891, [51, 49]), (12892, [51, 50]), (12893, [51, 51]), (12894, [51, 52]),
  (12895, [51, 53]), (12977, [51, 54]), (12978, [51, 55]), (12979, [51, 56]), (12980, [51, 57]), (12981, [52, 48]),
  (12982, [52, 49]), (12983, [52, 50]), (12984, [52, 51]), (12985, [52, 52]), (12986, [52, 53]), (12987, [52, 54]),
  (12988, [52, 55]), (12989, [52, 56]), (12990, [52, 57]), (12991, [53, 48]), (12992, [49]), (12993, [50]),
  (12994, [51]), (12995, [52]), (12996, [53]), (12997, [54]), (12998, [55]), (12999, [56]),
  (13000, [57]), (13001, [49, 48]), (13002, [49, 49]), (13003, [49, 50]), (13004, [72, 103]), (13005, [101, 114, 103]),
  (13006, [101, 86]), (13007, [76, 84, 68]), (13144, [48]), (13145, [49]), (13146, [50]), (13147, [51]),
  (13148, [52]), (13149, [53]), (13150, [54]), (13151, [55]), (13152, [56]), (13153, [57]),
  (13154, [49, 48]), (13155, [49, 49]), (13156, [49, 50]), (13157, [49, 51]), (13158, [49, 52]), (13159, [49, 53]),
  (13160, [49, 54]), (13161, [49, 55]), (13162, [49, 56]), (13163, [49, 57]), (13164, [50, 48]), (13165, [50, 49]),
  (13166, [50, 50]), (13167, [50, 51]), (13168, [50, 52]), (13169, [104, 80, 97]), (13170, [100, 97]), (13171, [65, 85]),
  (13172, [98, 97, 114]), (13173, [111, 86]), (13174, [112, 99]), (13175, [100, 109]), (13176, [100, 109, 50]), (13177, [100, 109, 51]),
  (13178, [73, 85]), (13184, [112, 65]), (13185, [110, 65]), (13186, [65]), (13187, [109, 65]), (13188, [107, 65]),
  (13189, [75, 66]), (13190, [77, 66]), (13191, [71, 66]), (13192, [99, 97, 108]), (13193, [107, 99, 97, 108]), (13194, [112, 70]),
  (13195, [110, 70]), (13196, [70]), (13197, [103]), (13198, [109, 103]), (13199, [107, 103]), (13200, [72, 122]),
  (13201, [107, 72, 122]), (13202, [77, 72, 122]), (13203, [71, 72, 122]), (13204, [84, 72, 122]), (13205, [108]), (13206, [109, 108]),
  (13207, [100, 108]), (13208, [107, 108]), (13209, [102, 109]), (13210, [110, 109]), (13211, [109]), (13212, [109, 109]),
  (13213, [99, 109]), (13214, [107, 109]), (13215, [109, 109, 50]), (13216, [99, 109, 50]), (13217, [109, 50]), (13218, [107, 109, 50]),
  (13219, [109, 109, 51]), (13220, [99, 109, 51]), (13221, [109, 51]), (13222, [107, 109, 51]), (13223, [109, 115]), (13224, [109, 115, 50]),
  (13225, [80, 97]), (13226, [107, 80, 97]), (13227, [77, 80, 97]), (13228, [71, 80, 97]), (13229, [114, 97, 100]), (13230, [114, 97, 100, 115]),
  (13231, [114, 97, 100, 115, 50]), (13232, [112, 115]), (13233, [110, 115]), (13234, [115]), (13235, [109, 115]), (13236, [112, 86]),
  (13237, [110, 86]), (13238, [86]), (13239, [109, 86]), (13240, [107, 86]), (13241, [77, 86]), (13242, [112, 87]),
  (13243, [110, 87]), (13244, [87]), (13245, [109, 87]), (13246, [107, 87]), (13247, [77, 87]), (13248, [107]),
  (13249, [77]), (13250, [97, 46, 109, 46]), (13251, [66, 113]), (13252, [99, 99]), (13253, [99, 100]), (13254, [67, 107, 103]),
  (13255, [67, 111, 46]), (13256, [100, 66]), (13257, [71, 121]), (13258, [104, 97]), (13259, [72, 80]), (13260, [105, 110]),
  (13261, [75, 75]), (13262, [75, 77]), (13263, [107, 116]), (13264, [108, 109]), (13265, [108, 110]), (13266, [108, 111, 103]),
  (13267, [108, 120]), (13268, [109, 98]), (13269, [109, 105, 108]), (13270, [109, 111, 108]), (13271, [80, 72]), (13272, [112, 46, 109, 46]),
  (13273, [80, 80, 77]), (13274, [80, 82]), (13275, [115, 114]), (13276, [83, 118]), (13277, [87, 98]), (13278, [86, 109]),
  (13279, [65, 109]), (13280, [49]), (13281, [50]), (13282, [51]), (13283, [52]), (13284, [53]),
  (13285, [54]), (13286, [55]), (13287, [56]), (13288, [57]), (13289, [49, 48]), (13290, [49, 49]),
  (13291, [49, 50]), (13292, [49, 51]), (13293, [49, 52]), (13294, [49, 53]), (13295, [49, 54]), (13296, [49, 55]),
  (13297, [49, 56]), (13298, [49, 57]), (13299, [50, 48]), (13300, [50, 49]), (13301, [50, 50]), (13302, [50, 51]),
  (13303, [50, 52]), (13304, [50, 53]), (13305, [50, 54]), (13306, [50, 55]), (13307, [50, 56]), (13308, [50, 57]),
  (13309, [51, 48]), (13310, [51, 49]), (13311, [103, 97, 108]), (42994, [67]), (42995, [70]), (42996, [81]),
  (64256, [102, 102]), (64257, [102, 105]), (64258, [102, 108]), (64259, [102, 102, 105]), (64260, [102, 102, 108]), (64261, [115, 116]),
  (64262, [115, 116]), (64297, [43]), (64606, [32]), (64607, [32]), (64608, [32]), (64609, [32]),
  (64610, [32]), (64611, [32]), (65018, [32, 32, 32]), (65019, [32]), (65040, [44]), (65043, [58]),
  (65044, [59]), (65045, [33]), (65046, [63]), (65049, [46, 46, 46]), (65072, [46, 46]), (65075, [95]),
  (65076, [95]), (65077, [40]), (65078, [41]), (65079, [123]), (65080, [125]), (65095, [91]),
  (65096, [93]), (65097, [32]), (65098, [32]), (65099, [32]), (65100, [32]), (65101, [95]),
  (65102, [95]), (65103, [95]), (65104, [44]), (65106, [46]), (65108, [59]), (65109, [58]),
  (65110, [63]), (65111, [33]), (65113, [40]), (65114, [41]), (65115, [123]), (65116, [125]),
  (65119, [35]), (65120, [38]), (65121, [42]), (65122, [43]), (65123, [45]), (65124, [60]),
  (65125, [62]), (65126, [61]), (65128, [92]), (65129, [36]), (65130, [37]), (65131, [64]),
  (65136, [32]), (65138, [32]), (65140, [32]), (65142, [32]), (65144, [32]), (65146, [32]),
  (65148, [32]), (65150, [32]), (65281, [33]), (65282, [34]), (65283, [35]), (65284, [36]),
  (65285, [37]), (65286, [38]), (65287, [39]), (65288, [40]), (65289, [41]), (65290, [42]),
  (65291, [43]), (65292, [44]), (65293, [45]), (65294, [46]), (65295, [47]), (65296, [48]),
  (65297, [49]), (65298, [50]), (65299, [51]), (65300, [52]), (65301, [53]), (65302, [54]),
  (65303, [55]), (65304, [56]), (65305, [57]), (65306, [58]), (65307, [59]), (65308, [60]),
  (65309, [61]), (65310, [62]), (65311, [63]), (65312, [64]), (65313, [65]), (65314, [66]),
  (65315, [67]), (65316, [68]), (65317, [69]), (65318, [70]), (65319, [71]), (65320, [72]),
  (65321, [73]), (65322, [74]), (65323, [75]), (65324, [76]), (65325, [77]), (65326, [78]),
  (65327, [79]), (65328, [80]), (65329, [81]), (65330, [82]), (65331, [83]), (65332, [84]),
  (65333, [85]), (65334, [86]), (65335, [87]), (65336, [88]), (65337, [89]), (65338, [90]),
  (65339, [91]), (65340, [92]), (65341, [93]), (65342, [94]), (65343, [95]), (65344, [96]),
  (65345, [97]), (65346, [98]), (65347, [99]), (65348, [100]), (65349, [101]), (65350, [102]),
  (65351, [103]), (65352, [104]), (65353, [105]), (65354, [106]), (65355, [107]), (65356, [108]),
  (65357, [109]), (65358, [110]), (65359, [111]), (65360, [112]), (65361, [113]), (65362, [114]),
  (65363, [115]), (65364, [116]), (65365, [117]), (65366, [118]), (65367, [119]), (65368, [120]),
  (65369, [121]), (65370, [122]), (65371, [123]), (65372, [124]), (65373, [125]), (65374, [126]),
  (65507, [32]), (67493, [113]), (119808, [65]), (119809, [66]), (119810, [67]), (119811, [68]),
  (119812, [69]), (119813, [70]), (119814, [71]), (119815, [72]), (119816, [73]), (119817, [74]),
  (119818, [75]), (119819, [76]), (119820, [77]), (119821, [78]), (119822, [79]), (119823, [80]),
  (119824, [81]), (119825, [82]), (119826, [83]), (119827, [84]), (119828, [85]), (119829, [86]),
  (119830, [87]), (119831, [88]), (119832, [89]), (119833, [90]), (119834, [97]), (119835, [98]),
  (119836, [99]), (119837, [100]), (119838, [101]), (119839, [102]), (119840, [103]), (119841, [104]),
  (119842, [105]), (119843, [106]), (119844, [107]), (119845, [108]), (119846, [109]), (119847, [110]),
  (119848, [111]), (119849, [112]), (119850, [113]), (119851, [114]), (119852, [115]), (119853, [116]),
  (119854, [117]), (119855, [118]), (119856, [119]), (119857, [120]), (119858, [121]), (119859, [122]),
  (119860, [65]), (119861, [66]), (119862, [67]), (119863, [68]), (119864, [69]), (119865, [70]),
  (119866, [71]), (119867, [72]), (119868, [73]), (119869, [74]), (119870, [75]), (119871, [76]),
  (119872, [77]), (119873, [78]), (119874, [79]), (119875, [80]), (119876, [81]), (119877, [82]),
  (119878, [83]), (119879, [84]), (119880, [85]), (119881, [86]), (119882, [87]), (119883, [88]),
  (119884, [89]), (119885, [90]), (119886, [97]), (119887, [98]), (119888, [99]), (119889, [100]),
  (119890, [101]), (119891, [102]), (119892, [103]), (119894, [105]), (119895, [106]), (119896, [107]),
  (119897, [108]), (119898, [109]), (119899, [110]), (119900, [111]), (119901, [112]), (119902, [113]),
  (119903, [114]), (119904, [115]), (119905, [116]), (119906, [117]), (119907, [118]), (119908, [119]),
  (119909, [120]), (119910, [121]), (119911, [122]), (119912, [65]), (119913, [66]), (119914, [67]),
  (119915, [68]), (119916, [69]), (119917, [70]), (119918, [71]), (119919, [72]), (119920, [73]),
  (119921, [74]), (119922, [75]), (119923, [76]), (119924, [77]), (119925, [78]), (119926, [79]),
  (119927, [80]), (119928, [81]), (119929, [82]), (119930, [83]), (119931, [84]), (119932, [85]),
  (119933, [86]), (119934, [87]), (119935, [88]), (119936, [89]), (119937, [90]), (119938, [97]),
  (119939, [98]), (119940, [99]), (119941, [100]), (119942, [101]), (119943, [102]), (119944, [103]),
  (119945, [104]), (119946, [105]), (119947, [106]), (119948, [107]), (119949, [108]), (119950, [109]),
  (119951, [110]), (119952, [111]), (119953, [112]), (119954, [113]), (119955, [114]), (119956, [115]),
  (119957, [116]), (119958, [117]), (119959, [118]), (119960, [119]), (119961, [120]), (119962, [121]),
  (119963, [122]), (119964, [65]), (119966, [67]), (119967, [68]), (119970, [71]), (119973, [74]),
  (119974, [75]), (119977, [78]), (119978, [79]), (119979, [80]), (119980, [81]), (119982, [83]),
  (119983, [84]), (119984, [85]), (119985, [86]), (119986, [87]), (119987, [88]), (119988, [89]),
  (119989, [90]), (119990, [97]), (119991, [98]), (119992, [99]), (119993, [100]), (119995, [102]),
  (119997, [104]), (119998, [105]), (119999, [106]), (120000, [107]), (120001, [108]), (120002, [109]),
  (120003, [110]), (120005, [112]), (120006, [113]), (120007, [114]), (120008, [115]), (120009, [116]),
  (120010, [117]), (120011, [118]), (120012, [119]), (120013, [120]), (120014, [121]), (120015, [122]),
  (120016, [65]), (120017, [66]), (120018, [67]), (120019, [68]), (120020, [69]), (120021, [70]),
  (120022, [71]), (120023, [72]), (120024, [73]), (120025, [74]), (120026, [75]), (120027, [76]),
  (120028, [77]), (120029, [78]), (120030, [79]), (120031, [80]), (120032, [81]), (120033, [82]),
  (120034, [83]), (120035, [84]), (120036, [85]), (120037, [86]), (120038, [87]), (120039, [88]),
  (120040, [89]), (120041, [90]), (120042, [97]), (120043, [98]), (120044, [99]), (120045, [100]),
  (120046, [101]), (120047, [102]), (120048, [103]), (120049, [104]), (120050, [105]), (120051, [106]),
  (120052, [107]), (120053, [108]), (120054, [109]), (120055, [110]), (120056, [111]), (120057, [112]),
  (120058, [113]), (120059, [114]), (120060, [115]), (120061, [116]), (120062, [117]), (120063, [118]),
  (120064, [119]), (120065, [120]), (120066, [121]), (120067, [122]), (120068, [65]), (120069, [66]),
  (120071, [68]), (120072, [69]), (120073, [70]), (120074, [71]), (120077, [74]), (120078, [75]),
  (120079, [76]), (120080, [77]), (120081, [78]), (120082, [79]), (120083, [80]), (120084, [81]),
  (120086, [83]), (120087, [84]), (120088, [85]), (120089, [86]), (120090, [87]), (120091, [88]),
  (120092, [89]), (120094, [97]), (120095, [98]), (120096, [99]), (120097, [100]), (120098, [101]),
  (120099, [102]), (120100, [103]), (120101, [104]), (120102, [105]), (120103, [106]), (120104, [107]),
  (120105, [108]), (120106, [109]), (120107, [110]), (120108, [111]), (120109, [112]), (120110, [113]),
  (120111, [114]), (120112, [115]), (120113, [116]), (120114, [117]), (120115, [118]), (120116, [119]),
  (120117, [120]), (120118, [121]), (120119, [122]), (120120, [65]), (120121, [66]), (120123, [68]),
  (120124, [69]), (120125, [70]), (120126, [71]), (120128, [73]), (120129, [74]), (120130, [75]),
  (120131, [76]), (120132, [77]), (120134, [79]), (120138, [83]), (120139, [84]), (120140, [85]),
  (120141, [86]), (120142, [87]), (120143, [88]), (120144, [89]), (120146, [97]), (120147, [98]),
  (120148, [99]), (120149, [100]), (120150, [101]), (120151, [102]), (120152, [103]), (120153, [104]),
  (120154, [105]), (120155, [106]), (120156, [107]), (120157, [108]), (120158, [109]), (120159, [110]),
  (120160, [111]), (120161, [112]), (120162, [113]), (120163, [114]), (120164, [115]), (120165, [116]),
  (120166, [117]), (120167, [118]), (120168, [119]), (120169, [120]), (120170, [121]), (120171, [122]),
  (120172, [65]), (120173, [66]), (120174, [67]), (120175, [68]), (120176, [69]), (120177, [70]),
  (120178, [71]), (120179, [72]), (120180, [73]), (120181, [74]), (120182, [75]), (120183, [76]),
  (120184, [77]), (120185, [78]), (120186, [79]), (120187, [80]), (120188, [81]), (120189, [82]),
  (120190, [83]), (120191, [84]), (120192, [85]), (120193, [86]), (120194, [87]), (120195, [88]),
  (120196, [89]), (120197, [90]), (120198, [97]), (120199, [98]), (120200, [99]), (120201, [100]),
  (120202, [101]), (120203, [102]), (120204, [103]), (120205, [104]), (120206, [105]), (120207, [106]),
  (120208, [107]), (120209, [108]), (120210, [109]), (120211, [110]), (120212, [111]), (120213, [112]),
  (120214, [113]), (120215, [114]), (120216, [115]), (120217, [116]), (120218, [117]), (120219, [118]),
  (120220, [119]), (120221, [120]), (120222, [121]), (120223, [122]), (120224, [65]), (120225, [66]),
  (120226, [67]), (120227, [68]), (120228, [69]), (120229, [70]), (120230, [71]), (120231, [72]),
  (120232, [73]), (120233, [74]), (120234, [75]), (120235, [76]), (120236, [77]), (120237, [78]),
  (120238, [79]), (120239, [80]), (120240, [81]), (120241, [82]), (120242, [83]), (120243, [84]),
  (120244, [85]), (120245, [86]), (120246, [87]), (120247, [88]), (120248, [89]), (120249, [90]),
  (120250, [97]), (120251, [98]), (120252, [99]), (120253, [100]), (120254, [101]), (120255, [102]),
  (120256, [103]), (120257, [104]), (120258, [105]), (120259, [106]), (120260, [107]), (120261, [108]),
  (120262, [109]), (120263, [110]), (120264, [111]), (120265, [112]), (120266, [113]), (120267, [114]),
  (120268, [115]), (120269, [116]), (120270, [117]), (120271, [118]), (120272, [119]), (120273, [120]),
  (120274, [121]), (120275, [122]), (120276, [65]), (120277, [66]), (120278, [67]), (120279, [68]),
  (120280, [69]), (120281, [70]), (120282, [71]), (120283, [72]), (120284, [73]), (120285, [74]),
  (120286, [75]), (120287, [76]), (120288, [77]), (120289, [78]), (120290, [79]), (120291, [80]),
  (120292, [81]), (120293, [82]), (120294, [83]), (120295, [84]), (120296, [85]), (120297, [86]),
  (120298, [87]), (120299, [88]), (120300, [89]), (120301, [90]), (120302, [97]), (120303, [98]),
  (120304, [99]), (120305, [100]), (120306, [101]), (120307, [102]), (120308, [103]), (120309, [104]),
  (120310, [105]), (120311, [106]), (120312, [107]), (120313, [108]), (120314, [109]), (120315, [110]),
  (120316, [111]), (120317, [112]), (120318, [113]), (120319, [114]), (120320, [115]), (120321, [116]),
  (120322, [117]), (120323, [118]), (120324, [119]), (120325, [120]), (120326, [121]), (120327, [122]),
  (120328, [65]), (120329, [66]), (120330, [67]), (120331, [68]), (120332, [69]), (120333, [70]),
  (120334, [71]), (120335, [72]), (120336, [73]), (120337, [74]), (120338, [75]), (120339, [76]),
  (120340, [77]), (120341, [78]), (120342, [79]), (120343, [80]), (120344, [81]), (120345, [82]),
  (120346, [83]), (120347, [84]), (120348, [85]), (120349, [86]), (120350, [87]), (120351, [88]),
  (120352, [89]), (120353, [90]), (120354, [97]), (120355, [98]), (120356, [99]), (120357, [100]),
  (120358, [101]), (120359, [102]), (120360, [103]), (120361, [104]), (120362, [105]), (120363, [106]),
  (120364, [107]), (120365, [108]), (120366, [109]), (120367, [110]), (120368, [111]), (120369, [112]),
  (120370, [113]), (120371, [114]), (120372, [115]), (120373, [116]), (120374, [117]), (120375, [118]),
  (120376, [119]), (120377, [120]), (120378, [121]), (120379, [122]), (120380, [65]), (120381, [66]),
  (120382, [67]), (120383, [68]), (120384, [69]), (120385, [70]), (120386, [71]), (120387, [72]),
  (120388, [73]), (120389, [74]), (120390, [75]), (120391, [76]), (120392, [77]), (120393, [78]),
  (120394, [79]), (120395, [80]), (120396, [81]), (120397, [82]), (120398, [83]), (120399, [84]),
  (120400, [85]), (120401, [86]), (120402, [87]), (120403, [88]), (120404, [89]), (120405, [90]),
  (120406, [97]), (120407, [98]), (120408, [99]), (120409, [100]), (120410, [101]), (120411, [102]),
  (120412, [103]), (120413, [104]), (120414, [105]), (120415, [106]), (120416, [107]), (120417, [108]),
  (120418, [109]), (120419, [110]), (120420, [111]), (120421, [112]), (120422, [113]), (120423, [114]),
  (120424, [115]), (120425, [116]), (120426, [117]), (120427, [118]), (120428, [119]), (120429, [120]),
  (120430, [121]), (120431, [122]), (120432, [65]), (120433, [66]), (120434, [67]), (120435, [68]),
  (120436, [69]), (120437, [70]), (120438, [71]), (120439, [72]), (120440, [73]), (120441, [74]),
  (120442, [75]), (120443, [76]), (120444, [77]), (120445, [78]), (120446, [79]), (120447, [80]),
  (120448, [81]), (120449, [82]), (120450, [83]), (120451, [84]), (120452, [85]), (120453, [86]),
  (120454, [87]), (120455, [88]), (120456, [89]), (120457, [90]), (120458, [97]), (120459, [98]),
  (120460, [99]), (120461, [100]), (120462, [101]), (120463, [102]), (120464, [103]), (120465, [104]),
  (120466, [105]), (120467, [106]), (120468, [107]), (120469, [108]), (120470, [109]), (120471, [110]),
  (120472, [111]), (120473, [112]), (120474, [113]), (120475, [114]), (120476, [115]), (120477, [116]),
  (120478, [117]), (120479, [118]), (120480, [119]), (120481, [120]), (120482, [121]), (120483, [122]),
  (120782, [48]), (120783, [49]), (120784, [50]), (120785, [51]), (120786, [52]), (120787, [53]),
  (120788, [54]), (120789, [55]), (120790, [56]), (120791, [57]), (120792, [48]), (120793, [49]),
  (120794, [50]), (120795, [51]), (120796, [52]), (120797, [53]), (120798, [54]), (120799, [55]),
  (120800, [56]), (120801, [57]), (120802, [48]), (120803, [49]), (120804, [50]), (120805, [51]),
  (120806, [52]), (120807, [53]), (120808, [54]), (120809, [55]), (120810, [56]), (120811, [57]),
  (120812, [48]), (120813, [49]), (120814, [50]), (120815, [51]), (120816, [52]), (120817, [53]),
  (120818, [54]), (120819, [55]), (120820, [56]), (120821, [57]), (120822, [48]), (120823, [49]),
  (120824, [50]), (120825, [51]), (120826, [52]), (120827, [53]), (120828, [54]), (120829, [55]),
  (120830, [56]), (120831, [57]), (127232, [48, 46]), (127233, [48, 44]), (127234, [49, 44]), (127235, [50, 44]),
  (127236, [51, 44]), (127237, [52, 44]), (127238, [53, 44]), (127239, [54, 44]), (127240, [55, 44]), (127241, [56, 44]),
  (127242, [57, 44]), (127248, [40, 65, 41]), (127249, [40, 66, 41]), (127250, [40, 67, 41]), (127251, [40, 68, 41]), (127252, [40, 69, 41]),
  (127253, [40, 70, 41]), (127254, [40, 71, 41]), (127255, [40, 72, 41]), (127256, [40, 73, 41]), (127257, [40, 74, 41]), (127258, [40, 75, 41]),
  (127259, [40, 76, 41]), (127260, [40, 77, 41]), (127261, [40, 78, 41]), (127262, [40, 79, 41]), (127263, [40, 80, 41]), (127264, [40, 81, 41]),
  (127265, [40, 82, 41]), (127266, [40, 83, 41]), (127267, [40, 84, 41]), (127268, [40, 85, 41]), (127269, [40, 86, 41]), (127270, [40, 87, 41]),
  (127271, [40, 88, 41]), (127272, [40, 89, 41]), (127273, [40, 90, 41]), (127274, [83]), (127275, [67]), (127276, [82]),
  (127277, [67, 68]), (127278, [87, 90]), (127280, [65]), (127281, [66]), (127282, [67]), (127283, [68]),
  (127284, [69]), (127285, [70]), (127286, [71]), (127287, [72]), (127288, [73]), (127289, [74]),
  (127290, [75]), (127291, [76]), (127292, [77]), (127293, [78]), (127294, [79]), (127295, [80]),
  (127296, [81]), (127297, [82]), (127298, [83]), (127299, [84]), (127300, [85]), (127301, [86]),
  (127302, [87]), (127303, [88]), (127304, [89]), (127305, [90]), (127306, [72, 86]), (127307, [77, 86]),
  (127308, [83, 68]), (127309, [83, 83]), (127310, [80, 80, 86]), (127311, [87, 67]), (127338, [77, 67]), (127339, [77, 68]),
  (127340, [77, 82]), (127376, [68, 74]), (130032, [48]), (130033, [49]), (130034, [50]), (130035, [51]),
  (130036, [52]), (130037, [53]), (130038, [54]), (130039, [55]), (130040, [56]), (130041, [57])]

/-- NFKD normalization followed by encode("ascii", "ignore"), one character
at a time: ASCII is untouched, a tabulated code point contributes its ASCII
residue, everything else is dropped. -/
def nfkdAscii (c : Char) : List Char :=
  let n := c.toNat
  if n < 128 then [c]
  else
    match nfkdAsciiTable.lookup n with
    | some bs => bs.map Char.ofNat
    | none => []

/-- One character is kept by the slugify character filter when it matches
the regex class [\w\s-] (after lowercasing; the input is ASCII by then, so
\w is letters, digits and underscore). -/
def slugKeepChar (c : Char) : Bool :=
  c.isAlphanum || c == '_' || pyIsSpace c || c == '-'

/-- Replace every maximal run of hyphens and whitespace by a single hyphen
(re.sub of the pattern [-\s]+ with a hyphen); the flag records whether the
previous character belonged to such a run. -/
def collapseRunsAux : Bool → List Char → List Char
  | _, [] => []
  | inRun, c :: cs =>
    if c == '-' || pyIsSpace c then
      (if inRun then [] else ['-']) ++ collapseRunsAux true cs
    else c :: collapseRunsAux false cs

/-- Drop matching characters from both ends (Python str.strip with an
explicit character set). -/
def stripEnds (p : Char → Bool) (l : List Char) : List Char :=
  ((l.dropWhile p).reverse.dropWhile p).reverse

/-- django.utils.text.slugify: NFKD-normalize and keep the ASCII residue
(encode ascii/ignore), lowercase, drop characters outside [\w\s-], collapse
runs of hyphens and whitespace to one hyphen, and strip leading and
trailing hyphens and underscores. -/
def slugify (s : String) : String :=
  let ascii := (s.data.map nfkdAscii).flatten
  let lowered := ascii.map Char.toLower
  let kept := lowered.filter slugKeepChar
  ⟨stripEnds (fun c => c == '-' || c == '_') (collapseRunsAux false kept)⟩

/-- The i-th slug tried by MembershipPlan.save: the base slug itself, then
base-1, base-2, and so on. -/
def slugCandidate (base : String) (i : Nat) : String :=
  if i = 0 then base else base ++ "-" ++ natToDecStr i

/-- The while loop of MembershipPlan.save: walk the candidates from index i
until one is not among the other plans' slugs.  The fuel argument makes the
loop structural; membershipPlanSave always passes enough fuel for the loop
to reach a free candidate. -/
def findFreeSlug (existing : List String) (base : String) : Nat → Nat → String
  | 0, i => slugCandidate base i
  | fuel + 1, i =>
    if slugCandidate base i ∈ existing then findFreeSlug existing base fuel (i + 1)
    else slugCandidate base i

/-- MembershipPlan.save: when the stored slug is blank, derive it from the
name (slugify, truncate to 70 characters, uniquify against the slugs of the
other plans, i.e. the queryset that excludes the row being saved); otherwise
keep the stored slug. -/
def membershipPlanSave (existing : List String) (name slug : String) : String :=
  if slug = "" then
    findFreeSlug existing (⟨(slugify name).data.take 70⟩ : String) (existing.length + 1) 0
  else slug

theorem slugCandidate_injective (base : String) :
    Function.Injective (slugCandidate base) := by
  intro i j h
  by_cases hi : i = 0 <;> by_cases hj : j = 0
  · omega
  · exfalso
    simp only [slugCandidate, if_pos hi, if_neg hj] at h
    have hlen := congrArg String.length h
    rw [String.length_append, String.length_append] at hlen
    have hpos : 0 < (natToDecStr j).length := by
      show 0 < (natDigitsAux (j + 1) j).length
      exact List.length_pos.mpr (natDigitsAux_ne_nil (j + 1) j (Nat.succ_pos j))
    have hone : ("-" : String).length = 1 := rfl
    rw [hone] at hlen
    omega
  · exfalso
    simp only [slugCandidate, if_neg hi, if_pos hj] at h
    have hlen := congrArg String.length h
    rw [String.length_append, String.length_append] at hlen
    have hpos : 0 < (natToDecStr i).length := by
      show 0 < (natDigitsAux (i + 1) i).length
      exact List.length_pos.mpr (natDigitsAux_ne_nil (i + 1) i (Nat.succ_pos i))
    have hone : ("-" : String).length = 1 := rfl
    rw [hone] at hlen
    omega
  · simp only [slugCandidate, if_neg hi, if_neg hj] at h
    have hdata := congrArg String.data h
    rw [String.data_append, String.data_append, String.data_append,
      String.data_append, List.append_assoc, List.append_assoc] at hdata
    have h2 := List.append_cancel_left hdata
    have h3 := List.append_cancel_left h2
    exact natToDecStr_injective (congrArg String.mk h3)

theorem findFreeSlug_not_mem (existing : List String) (base : String) :
    ∀ (fuel i : Nat), (∃ j, j < fuel ∧ slugCandidate base (i + j) ∉ existing) →
      findFreeSlug existing base fuel i ∉ existing := by
  intro fuel
  induction fuel with
  | zero => intro i h; omega
  | succ f ih =>
    intro i h
    show (if slugCandidate base i ∈ existing then findFreeSlug existing base f (i + 1)
      else slugCandidate base i) ∉ existing
    by_cases hin : slugCandidate base i ∈ existing
    · rw [if_pos hin]
      obtain ⟨j, hj, hfree⟩ := h
      cases j with
      | zero => exact absurd hin (by simpa using hfree)
      | succ j2 =>
        refine ih (i + 1) ⟨j2, by omega, ?_⟩
        have : i + 1 + j2 = i + (j2 + 1) := by omega
        rw [this]
        exact hfree
    · rw [if_neg hin]; exact hin

theorem exists_free_candidate (existing : List String) (base : String) :
    ∃ j, j < existing.length + 1 ∧ slugCandidate base j ∉ existing := by
  by_contra hall
  push_neg at hall
  have hsub : Finset.image (slugCandidate base) (Finset.range (existing.length + 1)) ⊆
      existing.toFinset := by
    intro s hs
    rw [Finset.mem_image] at hs
    obtain ⟨j, hj, rfl⟩ := hs
    rw [List.mem_toFinset]
    exact hall j (Finset.mem_range.mp hj)
  have hcard := Finset.card_le_card hsub
  rw [Finset.card_image_of_injective _ (slugCandidate_injective base),
    Finset.card_range] at hcard
  have := existing.toFinset_card_le
  omega

theorem findFreeSlug_is_candidate (existing : List String) (base : String) :
    ∀ (fuel i : Nat), ∃ j, findFreeSlug existing base fuel i = slugCandidate base (i + j) := by
  intro fuel
  induction fuel with
  | zero => intro i; exact ⟨0, rfl⟩
  | succ f ih =>
    intro i
    show (∃ j, (if slugCandidate base i ∈ existing then findFreeSlug existing base f (i + 1)
      else slugCandidate base i) = slugCandidate base (i + j))
    by_cases hin : slugCandidate base i ∈ existing
    · rw [if_pos hin]
      obtain ⟨j, hj⟩ := ih (i + 1)
      exact ⟨j + 1, by rw [hj]; congr 1; omega⟩
    · rw [if_neg hin]; exact ⟨0, rfl⟩

/-! ### AdmissionForm field validation (forms.py) -/

/-- The regex class \d in Python unicode mode: the Unicode decimal digits
(general category Nd, 660 code points in 62 runs of the Unicode character
database shipped with CPython 3.11). -/
def pyIsDecimalDigit (c : Char) : Bool :=
  let n := c.toNat
  (48 ≤ n && n ≤ 57) || (1632 ≤ n && n ≤ 1641) || (1776 ≤ n && n ≤ 1785) || (1984 ≤ n && n ≤ 1993) ||
    (2406 ≤ n && n ≤ 2415) || (2534 ≤ n && n ≤ 2543) || (2662 ≤ n && n ≤ 2671) || (2790 ≤ n && n ≤ 2799) ||
    (2918 ≤ n && n ≤ 2927) || (3046 ≤ n && n ≤ 3055) || (3174 ≤ n && n ≤ 3183) || (3302 ≤ n && n ≤ 3311) ||
    (3430 ≤ n && n ≤ 3439) || (3558 ≤ n && n ≤ 3567) || (3664 ≤ n && n ≤ 3673) || (3792 ≤ n && n ≤ 3801) ||
    (3872 ≤ n && n ≤ 3881) || (4160 ≤ n && n ≤ 4169) || (4240 ≤ n && n ≤ 4249) || (6112 ≤ n && n ≤ 6121) ||
    (6160 ≤ n && n ≤ 6169) || (6470 ≤ n && n ≤ 6479) || (6608 ≤ n && n ≤ 6617) || (6784 ≤ n && n ≤ 6793) ||
    (6800 ≤ n && n ≤ 6809) || (6992 ≤ n && n ≤ 7001) || (7088 ≤ n && n ≤ 7097) || (7232 ≤ n && n ≤ 7241) ||
    (7248 ≤ n && n ≤ 7257) || (42528 ≤ n && n ≤ 42537) || (43216 ≤ n && n ≤ 43225) || (43264 ≤ n && n ≤ 43273) ||
    (43472 ≤ n && n ≤ 43481) || (43504 ≤ n && n ≤ 43513) || (43600 ≤ n && n ≤ 43609) || (44016 ≤ n && n ≤ 44025) ||
    (65296 ≤ n && n ≤ 65305) || (66720 ≤ n && n ≤ 66729) || (68912 ≤ n && n ≤ 68921) || (69734 ≤ n && n ≤ 69743) ||
    (69872 ≤ n && n ≤ 69881) || (69942 ≤ n && n ≤ 69951) || (70096 ≤ n && n ≤ 70105) || (70384 ≤ n && n ≤ 70393) ||
    (70736 ≤ n && n ≤ 70745) || (70864 ≤ n && n ≤ 70873) || (71248 ≤ n && n ≤ 71257) || (71360 ≤ n && n ≤ 71369) ||
    (71472 ≤ n && n ≤ 71481) || (71904 ≤ n && n ≤ 71913) || (72016 ≤ n && n ≤ 72025) || (72784 ≤ n && n ≤ 72793) ||
    (73040 ≤ n && n ≤ 73049) || (73120 ≤ n && n ≤ 73129) || (92768 ≤ n && n ≤ 92777) || (92864 ≤ n && n ≤ 92873) ||
    (93008 ≤ n && n ≤ 93017) || (120782 ≤ n && n ≤ 120831) || (123200 ≤ n && n ≤ 123209) || (123632 ≤ n && n ≤ 123641) ||
    (125264 ≤ n && n ≤ 125273) || (130032 ≤ n && n ≤ 130041)

/-- re.match against the clean_phone pattern: an optional leading plus sign
followed by 7 to 15 Unicode decimal digits, where the closing anchor is
Python's dollar, which also matches just before one trailing newline (so a
value ending in a single newline after the digits still matches). -/
def phoneRegexMatch (s : String) : Bool :=
  let chars :=
    match s.data.reverse with
    | '\n' :: rest => rest.reverse
    | _ => s.data
  let digits :=
    match chars with
    | '+' :: rest => rest
    | l => l
  decide (7 ≤ digits.length) && decide (digits.length ≤ 15) && digits.all pyIsDecimalDigit

/-- AdmissionForm.clean_phone: strip the submitted value, check the
sanitized copy (hyphens and spaces removed) against the phone regex, and on
success return the stripped — not the sanitized — value.  A failed match is
the ValidationError branch, modelled as none. -/
def clean_phone (raw : String) : Option String :=
  let phone := pyStrip raw
  let sanitized := removeChar ' ' (removeChar '-' phone)
  if phoneRegexMatch sanitized then some phone else none

/-- AdmissionForm.clean_date_of_birth: an empty value passes; otherwise the
age in years is the day difference divided by 365.2425 (exact rational
arithmetic here; the float computation in the source cannot change the
comparison because the quotient is never within the float error of 14), and
ages under 14 are rejected (none). -/
def clean_date_of_birth (today : Int) (dob : Option Int) : Option (Option Int) :=
  match dob with
  | none => some none
  | some d =>
    if (((today - d : Int) : ℚ) / (3652425 / 10000)) < 14 then none
    else some (some d)

/-- AdmissionForm.save (forms.py lines 139-151): before committing, set
total_amount to Decimal(plan.price_month) * Decimal(duration_months), or to
Decimal 0.00 when the admission has no plan. -/
def admissionFormSave (a : Admission) : Admission :=
  match a.plan with
  | some p => { a with total_amount := p.price_month.mulNat a.duration_months }
  | none => { a with total_amount := ⟨0⟩ }

/-- The total_amount block of the admission_form view (views.py lines
87-95): months is int(admission.duration_months) — which always succeeds
here because the cleaned model field is already an integer; the except
branch would fall back to months = 1 — and total_amount becomes
plan.price_month * Decimal(months), or Decimal 0.00 without a plan. -/
def admissionFormViewSetTotal (a : Admission) : Admission :=
  match a.plan with
  | some p =>
    let months := a.duration_months
    { a with total_amount := p.price_month.mulNat months }
  | none => { a with total_amount := ⟨0⟩ }

/-- The admission_form view on a submission that passed validation: the form
save computes total_amount, then the view recomputes and overwrites it, and
the row is saved. -/
def admission_form_submit (a : Admission) : Admission :=
  admissionFormViewSetTotal (admissionFormSave a)

/-! ### quote_plus (urllib.parse) -/

/-- UTF-8 bytes of one character (quote_plus encodes the UTF-8 encoding of
the string). -/
def utf8Bytes (c : Char) : List Nat :=
  let n := c.toNat
  if n < 128 then [n]
  else if n < 2048 then [192 + n / 64, 128 + n % 64]
  else if n < 65536 then [224 + n / 4096, 128 + (n / 64) % 64, 128 + n % 64]
  else [240 + n / 262144, 128 + (n / 4096) % 64, 128 + (n / 64) % 64, 128 + n % 64]

/-- Bytes quote_plus leaves unencoded: ASCII letters, digits, and the four
always-safe punctuation characters of urllib.parse.quote. -/
def quotePlusSafeByte (b : Nat) : Bool :=
  (65 ≤ b && b ≤ 90) || (97 ≤ b && b ≤ 122) || (48 ≤ b && b ≤ 57) ||
    b == 45 || b == 46 || b == 95 || b == 126

/-- Uppercase hexadecimal digit, as urllib percent-escapes use. -/
def hexUpper (n : Nat) : Char :=
  if n < 10 then Nat.digitChar n else Char.ofNat (55 + n)

/-- Encoding of one byte under quote_plus: a space becomes a plus sign, a
safe byte stands for itself, anything else becomes a percent escape. -/
def quotePlusByte (b : Nat) : List Char :=
  if b == 32 then ['+']
  else if quotePlusSafeByte b then [Char.ofNat b]
  else ['%', hexUpper (b / 16), hexUpper (b % 16)]

/-- urllib.parse.quote_plus with its default safe set. -/
def quotePlus (s : String) : String :=
  ⟨((s.data.map (fun c => ((utf8Bytes c).map quotePlusByte).flatten)).flatten)⟩

/-! ### Payment views (views.py) -/

/-- Redirect targets of the payment views. -/
inductive Redirect where
  | home
  | admission_form
  | payment_form (admission_id : Nat)
  | upi_page (admission_id : Nat)
  | payment_success
deriving DecidableEq

/-- What the upi_redirect view hands to the template (or, on a mobile user
agent, to the external redirect): the deep link, the amount string, and the
exact string passed to qrcode.make. -/
structure UpiRenderData where
  upi_link : String
  amount : String
  qr_code_payload : String
  is_mobile_redirect : Bool
deriving DecidableEq

/-- Outcome of upi_redirect: a redirect back to payment_form when a guard
fails, or the rendered/redirected UPI payment step. -/
inductive UpiResult where
  | redirectBack (admission_id : Nat)
  | page (d : UpiRenderData)
deriving DecidableEq

/-- The payee UPI id hard-coded in upi_redirect. -/
def UPI_ID : String := "yuvrajprajapati5665@okhdfcbank"

/-- The merchant name hard-coded in upi_redirect. -/
def merchant_name : String := "GYM-SHIM"

/-- Prefix test on character lists. -/
def listPrefixEq : List Char → List Char → Bool
  | [], _ => true
  | _ :: _, [] => false
  | a :: as, b :: bs => a == b && listPrefixEq as bs

/-- Substring test on character lists (Python in on strings). -/
def containsSubList (pat : List Char) : List Char → Bool
  | [] => listPrefixEq pat []
  | c :: cs => listPrefixEq pat (c :: cs) || containsSubList pat cs

/-- Python pat in s. -/
def containsSub (s pat : String) : Bool :=
  containsSubList pat.data s.data

/-- The mobile user-agent check of upi_redirect. -/
def isMobileAgent (agent : String) : Bool :=
  let a := lowerStr agent
  containsSub a "mobi" || containsSub a "android" || containsSub a "iphone"

/-- upi_redirect (views.py lines 129-191).  Inputs: the request method and
user agent, the fresh UUID string the created payment row receives, and the
admission row.  Output: the created AdmissionPayment row, if any, and the
HTTP outcome.  A non-POST method, a missing plan, or a non-positive amount
redirects back to payment_form without touching the database. -/
def upi_redirect (method agent txnId : String) (a : Admission) :
    Option AdmissionPayment × UpiResult :=
  if method ≠ "POST" then (none, .redirectBack a.id)
  else match a.plan with
  | none => (none, .redirectBack a.id)
  | some _ =>
    let amount_decimal := if a.total_amount = ⟨0⟩ then (⟨0⟩ : Dec2) else a.total_amount
    if amount_decimal.cents ≤ 0 then (none, .redirectBack a.id)
    else
      let amount_str := amount_decimal.toDecStr
      let payment : AdmissionPayment :=
        { admission_id := a.id
          amount := amount_decimal
          upi_id := ""
          transaction_id := txnId
          status := "pending"
          payment_mode := "UPI" }
      let note := "Admission-" ++ natToDecStr a.id
      let upi_link :=
        "upi://pay?pa=" ++ quotePlus UPI_ID ++
        "&pn=" ++ quotePlus merchant_name ++
        "&am=" ++ quotePlus amount_str ++
        "&tn=" ++ quotePlus note ++
        "&tr=" ++ quotePlus txnId ++
        "&cu=INR"
      (some payment, .page ⟨upi_link, amount_str, upi_link, isMobileAgent agent⟩)

/-- confirm_payment (views.py lines 194-215).  A non-POST request redirects
home; an already-processed payment redirects to payment_success; a stripped
reference that is shorter than 4, longer than 128, or contains whitespace
redirects back to the UPI page; otherwise the reference is stored in upi_id,
the status becomes success (these are the only two fields written), and the
request redirects to payment_success. -/
def confirm_payment (method : String) (p : AdmissionPayment) (rawRef : String) :
    AdmissionPayment × Redirect :=
  if method ≠ "POST" then (p, .home)
  else if p.status ≠ "pending" then (p, .payment_success)
  else
    let upi_txn_ref := pyStrip rawRef
    if ¬ (4 ≤ upi_txn_ref.length ∧ upi_txn_ref.length ≤ 128) ∨
        upi_txn_ref.data.any pyIsSpace then
      (p, .upi_page p.admission_id)
    else
      ({ p with upi_id := upi_txn_ref, status := "success" }, .payment_success)

/-! ### Home page (views.py lines 16-24) and the Meta orderings -/

/-- Sort key for the leading '-is_popular' ordering term: popular plans
first. -/
def planPopKey (p : MembershipPlan) : Int :=
  if p.is_popular then 0 else 1

/-- The default MembershipPlan queryset ordering of Meta.ordering =
['-is_popular', 'price_month', 'name']. -/
def planLE (a b : MembershipPlan) : Prop :=
  planPopKey a < planPopKey b ∨
    (planPopKey a = planPopKey b ∧
      (a.price_month.cents < b.price_month.cents ∨
        (a.price_month.cents = b.price_month.cents ∧ strLeB a.name b.name = true)))

/-- The Trainer queryset ordering of Meta.ordering = ['order', 'name']. -/
def trainerLE (a b : Trainer) : Prop :=
  a.order < b.order ∨ (a.order = b.order ∧ strLeB a.name b.name = true)

instance : DecidableRel planLE := fun a b => by unfold planLE; infer_instance

instance : DecidableRel trainerLE := fun a b => by unfold trainerLE; infer_instance

theorem planLE_trans : ∀ a b c : MembershipPlan, planLE a b → planLE b c → planLE a c := by
  intro a b c hab hbc
  rcases hab with h1 | ⟨h1, h2 | ⟨h2, h3⟩⟩ <;>
    rcases hbc with g1 | ⟨g1, g2 | ⟨g2, g3⟩⟩
  · exact Or.inl (by omega)
  · exact Or.inl (by omega)
  · exact Or.inl (by omega)
  · exact Or.inl (by omega)
  · exact Or.inr ⟨by omega, Or.inl (by omega)⟩
  · exact Or.inr ⟨by omega, Or.inl (by omega)⟩
  · exact Or.inl (by omega)
  · exact Or.inr ⟨by omega, Or.inl (by omega)⟩
  · exact Or.inr ⟨by omega, Or.inr ⟨by omega, strLeB_trans _ _ _ h3 g3⟩⟩

theorem planLE_total : ∀ a b : MembershipPlan, planLE a b ∨ planLE b a := by
  intro a b
  rcases Int.lt_trichotomy (planPopKey a) (planPopKey b) with h | h | h
  · exact Or.inl (Or.inl h)
  · rcases Int.lt_trichotomy a.price_month.cents b.price_month.cents with g | g | g
    · exact Or.inl (Or.inr ⟨h, Or.inl g⟩)
    · rcases strLeB_total a.name b.name with s | s
      · exact Or.inl (Or.inr ⟨h, Or.inr ⟨g, s⟩⟩)
      · exact Or.inr (Or.inr ⟨h.symm, Or.inr ⟨g.symm, s⟩⟩)
    · exact Or.inr (Or.inr ⟨h.symm, Or.inl g⟩)
  · exact Or.inr (Or.inl h)

theorem trainerLE_trans : ∀ a b c : Trainer, trainerLE a b → trainerLE b c → trainerLE a c := by
  intro a b c hab hbc
  rcases hab with h1 | ⟨h1, h2⟩ <;> rcases hbc with g1 | ⟨g1, g2⟩
  · exact Or.inl (by omega)
  · exact Or.inl (by omega)
  · exact Or.inl (by omega)
  · exact Or.inr ⟨by omega, strLeB_trans _ _ _ h2 g2⟩

theorem trainerLE_total : ∀ a b : Trainer, trainerLE a b ∨ trainerLE b a := by
  intro a b
  rcases Nat.lt_trichotomy a.order b.order with h | h | h
  · exact Or.inl (Or.inl h)
  · rcases strLeB_total a.name b.name with s | s
    · exact Or.inl (Or.inr ⟨h, s⟩)
    · exact Or.inr (Or.inr ⟨h.symm, s⟩)
  · exact Or.inr (Or.inl h)

instance : IsTrans MembershipPlan planLE := ⟨planLE_trans⟩

instance : IsTotal MembershipPlan planLE := ⟨planLE_total⟩

instance : IsTrans Trainer trainerLE := ⟨trainerLE_trans⟩

instance : IsTotal Trainer trainerLE := ⟨trainerLE_total⟩

/-- The home view (views.py lines 16-24): the first 3 plans and first 4
trainers of their default-ordered querysets, and the first 6 gallery images
(GalleryImage declares no ordering, so the list keeps table order). -/
def home (plansDb : List MembershipPlan) (trainersDb : List Trainer)
    (galleryDb : List GalleryImage) :
    List MembershipPlan × List Trainer × List GalleryImage :=
  ((List.insertionSort planLE plansDb).take 3,
   (List.insertionSort trainerLE trainersDb).take 4,
   galleryDb.take 6)

/-! ### Sample rows used by the witness theorems -/

/-- A concrete membership plan (the Basic plan the app seeds). -/
def samplePlan : MembershipPlan :=
  { name := "Basic"
    price_month := ⟨99900⟩
    price_annual := ⟨959000⟩
    duration_days := 30
    perks := ""
    slug := "basic"
    is_popular := false }

/-- A concrete validated admission for the Basic plan, three months. -/
def sampleAdmission : Admission :=
  { id := 1
    first_name := "Asha"
    last_name := "Rao"
    email := "asha@example.com"
    phone := "9876543210"
    gender := "female"
    date_of_birth := none
    address := ""
    plan := some samplePlan
    start_date := 0
    duration_months := 3
    emergency_contact_name := ""
    emergency_contact_phone := ""
    fitness_goals := ""
    medical_conditions := ""
    upi_id := ""
    agreed_terms := true
    total_amount := ⟨0⟩ }

/-- The same admission after its total has been computed. -/
def sampleAdmissionPaid : Admission :=
  { sampleAdmission with total_amount := ⟨299700⟩ }

/-- A concrete pending payment row. -/
def samplePayment : AdmissionPayment :=
  { admission_id := 1
    amount := ⟨299700⟩
    upi_id := ""
    transaction_id := "tr123"
    status := "pending"
    payment_mode := "UPI" }

/-! ### Claim theorems -/

/-- A Decimal "or 0.00" against a scale-2 value is the value itself: the
only falsy Decimal is zero. -/
theorem dec2_or_zero (d : Dec2) : (if d = ⟨0⟩ then (⟨0⟩ : Dec2) else d) = d := by
  by_cases h : d = ⟨0⟩ <;> simp [h]

/-- C1: for every admission submission that passes validation, the saved
total_amount is the selected plan's monthly price times the submitted
duration in months (the view's fallback to one month can only fire when the
cleaned integer field fails int(), which it never does), and an admission
without a plan is saved with total_amount 0.00. -/
theorem admission_form_total_amount (a : Admission) :
    (∀ p, a.plan = some p →
      (admission_form_submit a).total_amount = p.price_month.mulNat a.duration_months) ∧
    (a.plan = none → (admission_form_submit a).total_amount = ⟨0⟩) := by
  constructor
  · intro p hp
    simp [admission_form_submit, admissionFormSave, admissionFormViewSetTotal, hp]
  · intro hp
    simp [admission_form_submit, admissionFormSave, admissionFormViewSetTotal, hp]

/-- Witness for C1: the sample admission (999.00 per month, 3 months) is
saved with total 2997.00. -/
theorem admission_form_total_amount_witness :
    (admission_form_submit sampleAdmission).total_amount = ⟨299700⟩ := by
  have h := (admission_form_total_amount sampleAdmission).1 samplePlan rfl
  rw [h]
  decide

/-- C9: the form save and the admission_form view compute total_amount
independently, the submission pipeline lets the view value overwrite the
form value, and the two computations agree on every admission. -/
theorem form_and_view_totals_agree (a : Admission) :
    (admissionFormSave a).total_amount = (admissionFormViewSetTotal a).total_amount ∧
    admission_form_submit a = admissionFormViewSetTotal (admissionFormSave a) := by
  refine ⟨?_, rfl⟩
  cases hp : a.plan <;> simp [admissionFormSave, admissionFormViewSetTotal, hp]

/-- C2: on a POST request, confirm_payment writes upi_id and status (and
nothing else) — marking the payment success and storing the stripped
reference — exactly when the payment is pending and the stripped reference
is 4 to 128 characters with no whitespace; a non-POST request, a processed
payment, and an invalid reference each leave the row unchanged and
redirect away. -/
theorem confirm_payment_spec (m : String) (p : AdmissionPayment) (raw : String) :
    (m ≠ "POST" → confirm_payment m p raw = (p, Redirect.home)) ∧
    (m = "POST" → p.status ≠ "pending" →
      confirm_payment m p raw = (p, Redirect.payment_success)) ∧
    (m = "POST" → p.status = "pending" →
      (¬ (4 ≤ (pyStrip raw).length ∧ (pyStrip raw).length ≤ 128) ∨
        (pyStrip raw).data.any pyIsSpace = true) →
      confirm_payment m p raw = (p, Redirect.upi_page p.admission_id)) ∧
    (m = "POST" → p.status = "pending" →
      (4 ≤ (pyStrip raw).length ∧ (pyStrip raw).length ≤ 128 ∧
        (pyStrip raw).data.any pyIsSpace = false) →
      confirm_payment m p raw =
        ({ p with upi_id := pyStrip raw, status := "success" }, Redirect.payment_success)) := by
  refine ⟨?_, ?_, ?_, ?_⟩
  · intro hm
    simp [confirm_payment, hm]
  · intro hm hs
    subst hm
    simp [confirm_payment, hs]
  · intro hm hs hbad
    subst hm
    simp only [confirm_payment, ne_eq, not_true_eq_false, if_false, hs]
    rw [if_pos hbad]
  · intro hm hs hok
    subst hm
    obtain ⟨h1, h2, h3⟩ := hok
    simp only [confirm_payment, ne_eq, not_true_eq_false, if_false, hs]
    have hngood : ¬ (¬ (4 ≤ (pyStrip raw).length ∧ (pyStrip raw).length ≤ 128) ∨
        (pyStrip raw).data.any pyIsSpace = true) := by
      intro hcon
      rcases hcon with hc | hc
      · exact hc ⟨h1, h2⟩
      · rw [h3] at hc
        exact Bool.false_ne_true hc
    rw [if_neg hngood]

/-- Witness for C2: a pending payment with the posted reference
" TXN12345 " is marked success with the stripped reference stored. -/
theorem confirm_payment_spec_witness :
    confirm_payment "POST" samplePayment " TXN12345 " =
      ({ samplePayment with upi_id := "TXN12345", status := "success" },
        Redirect.payment_success) := by
  have h := (confirm_payment_spec "POST" samplePayment " TXN12345 ").2.2.2 rfl rfl
    ⟨by decide, by decide, by decide⟩
  rw [h]
  decide

/-- C3: upi_redirect creates a payment row exactly when the request is a
POST, the admission has a plan, and its total is positive; every created
row is a pending UPI payment over the admission's total; when the guard
fails nothing is created and the request redirects back. -/
theorem upi_redirect_payment_creation (m agent txn : String) (a : Admission) :
    ((upi_redirect m agent txn a).1.isSome ↔
      (m = "POST" ∧ a.plan.isSome ∧ 0 < a.total_amount.cents)) ∧
    (∀ p, (upi_redirect m agent txn a).1 = some p →
      p.status = "pending" ∧ p.payment_mode = "UPI" ∧ p.amount = a.total_amount ∧
      p.admission_id = a.id) ∧
    (¬ (m = "POST" ∧ a.plan.isSome ∧ 0 < a.total_amount.cents) →
      upi_redirect m agent txn a = (none, UpiResult.redirectBack a.id)) := by
  by_cases hm : m = "POST"
  · subst hm
    cases hplan : a.plan with
    | none => simp [upi_redirect, hplan]
    | some pl =>
      by_cases hamt : a.total_amount.cents ≤ 0
      · simp [upi_redirect, hplan, dec2_or_zero, hamt]
      · simp [upi_redirect, hplan, dec2_or_zero, hamt]
        omega
  · simp [upi_redirect, hm]

/-- Witness for C3: the sample POST with the paid sample admission creates
the pending UPI payment row over 2997.00. -/
theorem upi_redirect_payment_creation_witness :
    (upi_redirect "POST" "Mozilla" "tr123" sampleAdmissionPaid).1.isSome := by
  exact (upi_redirect_payment_creation "POST" "Mozilla" "tr123" sampleAdmissionPaid).1.mpr
    ⟨rfl, by decide, by decide⟩

/-- C4: for an admission with a plan and a positive total, the view builds
the deep link upi://pay with pa, pn, am, tn, tr, cu parameters in that
order, each value quote_plus-encoded, am the decimal string of the total,
and the QR code payload is exactly that link. -/
theorem upi_link_format (m agent txn : String) (a : Admission) (pl : MembershipPlan)
    (hm : m = "POST") (hp : a.plan = some pl) (hpos : 0 < a.total_amount.cents) :
    ∃ d, (upi_redirect m agent txn a).2 = UpiResult.page d ∧
      d.upi_link =
        "upi://pay?pa=" ++ quotePlus UPI_ID ++
        "&pn=" ++ quotePlus merchant_name ++
        "&am=" ++ quotePlus (a.total_amount.toDecStr) ++
        "&tn=" ++ quotePlus ("Admission-" ++ natToDecStr a.id) ++
        "&tr=" ++ quotePlus txn ++
        "&cu=INR" ∧
      d.qr_code_payload = d.upi_link ∧
      d.amount = a.total_amount.toDecStr := by
  subst hm
  have hamt : ¬ a.total_amount.cents ≤ 0 := by omega
  simp [upi_redirect, hp, dec2_or_zero, hamt]

/-- Witness for C4: the full link for the sample admission, with the payee
UPI id percent-encoded and the amount printed as 2997.00. -/
theorem upi_link_format_witness :
    (upi_redirect "POST" "Mozilla" "tr123" sampleAdmissionPaid).2 =
      UpiResult.page
        ⟨"upi://pay?pa=yuvrajprajapati5665%40okhdfcbank&pn=GYM-SHIM&am=2997.00&tn=Admission-1&tr=tr123&cu=INR",
          "2997.00",
          "upi://pay?pa=yuvrajprajapati5665%40okhdfcbank&pn=GYM-SHIM&am=2997.00&tn=Admission-1&tr=tr123&cu=INR",
          false⟩ := by
  have h := upi_link_format "POST" "Mozilla" "tr123" sampleAdmissionPaid samplePlan
    rfl rfl (by decide)
  decide

/-- C5: the phone validator accepts exactly when the sanitized value
(stripped, hyphens and spaces removed) is an optional plus sign followed by
7 to 15 digits, and on acceptance it returns the stripped original value,
not the sanitized one. -/
theorem clean_phone_spec (raw : String) :
    (phoneRegexMatch (removeChar ' ' (removeChar '-' (pyStrip raw))) = true →
      clean_phone raw = some (pyStrip raw)) ∧
    (phoneRegexMatch (removeChar ' ' (removeChar '-' (pyStrip raw))) = false →
      clean_phone raw = none) := by
  constructor <;> intro h <;> simp [clean_phone, h]

/-- Witness for C5: a hyphen-and-space formatted number is accepted and
stored with its formatting (only end whitespace stripped); a 5-digit
number is rejected. -/
theorem clean_phone_spec_witness :
    (clean_phone " 98-765 43210" = some "98-765 43210" ∧
      "98-765 43210" ≠ "9876543210") ∧ clean_phone "12345" = none := by
  refine ⟨⟨?_, by decide⟩, (clean_phone_spec "12345").2 (by decide)⟩
  have h := (clean_phone_spec " 98-765 43210").1 (by decide)
  rw [h]
  decide

/-- C6: date-of-birth validation accepts an empty value and otherwise
rejects exactly the dates whose age, the day difference divided by
365.2425, is under 14 years. -/
theorem clean_date_of_birth_spec (today d : Int) :
    (clean_date_of_birth today none = some none) ∧
    ((((today : ℚ) - (d : ℚ)) / (3652425 / 10000) < 14) →
      clean_date_of_birth today (some d) = none) ∧
    (¬ (((today : ℚ) - (d : ℚ)) / (3652425 / 10000) < 14) →
      clean_date_of_birth today (some d) = some (some d)) := by
  refine ⟨rfl, ?_, ?_⟩ <;> intro h <;> simp [clean_date_of_birth, h]

/-- Witness for C6: 5113 days (about 13.999 years) is rejected, 5114 days
(just over 14 years) is accepted. -/
theorem clean_date_of_birth_spec_witness :
    clean_date_of_birth 5113 (some 0) = none ∧
    clean_date_of_birth 5114 (some 0) = some (some 0) := by
  constructor
  · exact (clean_date_of_birth_spec 5113 0).2.1 (by norm_num)
  · exact (clean_date_of_birth_spec 5114 0).2.2 (by norm_num)

/-- C7: the home page shows at most 3 plans, 4 trainers, and 6 gallery
images, the plans sorted by the default plan ordering (popular first, then
monthly price, then name) and the trainers by their order field then
name. -/
theorem home_spec (ps : List MembershipPlan) (ts : List Trainer) (gs : List GalleryImage) :
    (home ps ts gs).1.length ≤ 3 ∧ (home ps ts gs).2.1.length ≤ 4 ∧
    (home ps ts gs).2.2.length ≤ 6 ∧
    List.Sorted planLE (home ps ts gs).1 ∧
    List.Sorted trainerLE (home ps ts gs).2.1 := by
  refine ⟨List.length_take_le 3 _, List.length_take_le 4 _, List.length_take_le 6 _, ?_, ?_⟩
  · exact List.Pairwise.sublist (List.take_sublist 3 _) (List.sorted_insertionSort planLE ps)
  · exact List.Pairwise.sublist (List.take_sublist 4 _) (List.sorted_insertionSort trainerLE ts)

/-- One unrolling of the slug search loop. -/
theorem findFreeSlug_succ (existing : List String) (base : String) (f i : Nat) :
    findFreeSlug existing base (f + 1) i =
      if slugCandidate base i ∈ existing then findFreeSlug existing base f (i + 1)
      else slugCandidate base i := rfl

/-- C8 counterexample: a plan whose name slugifies to the empty string is
saved with an empty slug, so the saved slug is not always nonempty. -/
theorem membershipPlanSave_empty_slug_cex :
    membershipPlanSave ["a"] "!!!" "" = "" := by decide

/-- C8 amended: saving with a blank slug derives a slug from the name
(slugified, truncated to 70 characters, with -1, -2, … appended on
collision) that never collides with another plan's slug, but the derived
slug is empty exactly when the truncated slugified name is empty and no
other plan has an empty slug; an already-nonempty slug is never changed. -/
theorem membershipPlanSave_spec (existing : List String) (name slug : String) :
    (slug ≠ "" → membershipPlanSave existing name slug = slug) ∧
    (slug = "" → membershipPlanSave existing name slug ∉ existing) ∧
    (slug = "" → (membershipPlanSave existing name slug = "" ↔
      ((⟨(slugify name).data.take 70⟩ : String) = "" ∧ "" ∉ existing))) := by
  have hmain : ∀ base : String,
      findFreeSlug existing base (existing.length + 1) 0 ∉ existing := by
    intro base
    apply findFreeSlug_not_mem
    obtain ⟨j, hj, hfree⟩ := exists_free_candidate existing base
    exact ⟨j, hj, by simpa using hfree⟩
  refine ⟨?_, ?_, ?_⟩
  · intro h
    simp [membershipPlanSave, h]
  · intro h
    subst h
    show findFreeSlug existing (⟨(slugify name).data.take 70⟩ : String)
      (existing.length + 1) 0 ∉ existing
    exact hmain _
  · intro h
    subst h
    have hres := hmain (⟨(slugify name).data.take 70⟩ : String)
    show (findFreeSlug existing (⟨(slugify name).data.take 70⟩ : String)
      (existing.length + 1) 0 = "" ↔ _)
    constructor
    · intro hempty
      obtain ⟨j, hj⟩ := findFreeSlug_is_candidate existing
        (⟨(slugify name).data.take 70⟩ : String) (existing.length + 1) 0
      rw [hj] at hempty
      cases j with
      | zero =>
        have hbase : (⟨(slugify name).data.take 70⟩ : String) = "" := by
          simpa [slugCandidate] using hempty
        refine ⟨hbase, ?_⟩
        rw [hj, hempty] at hres
        exact hres
      | succ j2 =>
        exfalso
        unfold slugCandidate at hempty
        rw [if_neg (by omega)] at hempty
        have hlen := congrArg String.length hempty
        rw [String.length_append, String.length_append] at hlen
        have hone : ("-" : String).length = 1 := rfl
        have hzero : ("" : String).length = 0 := rfl
        rw [hone, hzero] at hlen
        omega
    · rintro ⟨hbase, hnotin⟩
      rw [findFreeSlug_succ]
      have hcand : slugCandidate (⟨(slugify name).data.take 70⟩ : String) 0 = "" := by
        simp [slugCandidate, hbase]
      rw [hcand, if_neg hnotin]

/-- Witness for C8: with slugs basic and basic-1 taken, saving a plan named
Basic derives basic-2, which collides with neither. -/
theorem membershipPlanSave_spec_witness :
    membershipPlanSave ["basic", "basic-1"] "Basic" "" ∉ (["basic", "basic-1"] : List String) ∧
    membershipPlanSave ["basic", "basic-1"] "Basic" "" = "basic-2" := by
  exact ⟨(membershipPlanSave_spec ["basic", "basic-1"] "Basic" "").2.1 rfl, by decide⟩

end Gym
